import Mathlib

/-!
Verification of the `frontend` gateway crate: a shallow embedding of its
three source files (`src/lib.rs`, `src/server/mod.rs`,
`src/server/endpoints.rs`) together with proofs of the behavioural
properties of its HTTP handlers, its orchestrator and its channels.

Channel interactions are modelled explicitly: each handler is a pure
function from a small "world" record (did each `send` on the Command
Channel succeed, what did the blocking/timed `recv` on the Result Channel
yield) to the HTTP response it produces together with the ordered trace
of channel effects it performs.
-/

namespace Frontend

/-- Node kinds, from the external `wg_2024::packet::NodeType` enum used by
`endpoints.rs`. -/
inductive NodeType
  | Client
  | Drone
  | Server
deriving DecidableEq, Repr

/-- The discovery result carried on the flood Result Channel
(`ap_client_backend_v2::backend::ListOfDiscoveredEdgeNodes`): an ordered
collection of (node-identifier, node-kind) pairs. In Rust it is a tuple
struct; its positional field `.0` is named `nodes` here. Node identifiers
are `u8`; they are modelled as `Nat` (no arithmetic is done on them). -/
structure ListOfDiscoveredEdgeNodes where
  nodes : List (Nat × NodeType)
deriving DecidableEq, Repr

/-- An element of the unread-messages result. Its concrete shape lives in
the backend crate and is opaque to the front end, which only tests the
collection for emptiness and serializes it; a string payload stands in. -/
structure UnreadMsg where
  raw : String
deriving DecidableEq, Repr

/-- The unread-messages result carried on the second Result Channel
(`UnreadMessagesFromServer`); positional field `.0` named `msgs`. -/
structure UnreadMessagesFromServer where
  msgs : List UnreadMsg
deriving DecidableEq, Repr

/-- `messages::ChatRequest`, the application-level request kinds the
forwarding endpoints construct. -/
inductive ChatRequest
  | Register
  | SendMessage (from_ : Nat) (to_ : Nat) (message : String)
  | ClientList
deriving DecidableEq, Repr

/-- `messages::RequestType` (only the variant the handlers use). -/
inductive RequestType
  | ChatRequest (c : ChatRequest)
deriving DecidableEq, Repr

/-- `messages::MessageType` (only the variant the handlers use). -/
inductive MessageType
  | Request (r : RequestType)
deriving DecidableEq, Repr

/-- `messages::Message` as constructed in `endpoints.rs`. -/
structure Message where
  source : Nat
  destination : Nat
  session_id : Nat
  content : MessageType
deriving DecidableEq, Repr

/-- `ap_client_backend_v2::backend::Command`: the tagged union of
operations sent to the worker over the Command Channel. -/
inductive Command
  | InitializeFlood
  | GetEdgeNodesFromFlood
  | SendMessage (m : Message)
  | GetUnreadMessagesFromServer
deriving DecidableEq, Repr

/-- Response bodies the handlers produce: nothing (a bare builder), a JSON
string, a JSON array of node identifiers, or a JSON array of messages. -/
inductive Body
  | empty
  | text (s : String)
  | ids (l : List Nat)
  | msgs (l : List UnreadMsg)
deriving DecidableEq, Repr

/-- An HTTP response: numeric status code plus body. -/
structure HttpResponse where
  status : Nat
  body : Body
deriving DecidableEq, Repr

/-- One channel effect performed by a handler, in program order:
an attempted send on the Command Channel (with whether it succeeded),
the fixed thread sleep, the blocking receive on the flood Result Channel,
or the timeout-bounded select on the unread-messages Result Channel. -/
inductive Effect
  | SendCmd (c : Command) (ok : Bool)
  | Sleep (secs : Nat)
  | RecvFlood
  | RecvUnreadSelect
deriving DecidableEq, Repr

/-- The commands actually enqueued by a trace: only the sends that
succeeded put a command into the Command Channel queue. -/
def enqueued (es : List Effect) : List Command :=
  es.filterMap fun e =>
    match e with
    | .SendCmd c true => some c
    | _ => none

/-- The environment a `/flood` invocation runs against: whether each of
its two sends on the Command Channel succeeds (a send fails exactly when
the worker-side consumer has been dropped), and what the blocking `recv`
on the flood Result Channel returns (`none` models a closed channel,
i.e. `RecvError`). -/
structure FloodWorld where
  initFloodSendOk : Bool
  getNodesSendOk : Bool
  floodRecvResult : Option ListOfDiscoveredEdgeNodes
deriving DecidableEq, Repr

/-- The id-collecting loop of `flood_network`: keep only nodes of type
`Server`, pushing `node.0` for each matching `node.1`. -/
def collectServerIds : List (Nat × NodeType) → List Nat
  | [] => []
  | node :: rest =>
    match node.2 with
    | NodeType.Server => node.1 :: collectServerIds rest
    | _ => collectServerIds rest

/-- The `/flood` handler (`flood_network` in `endpoints.rs`): send
`Command::InitializeFlood` (500 on failure), sleep two seconds, send
`Command::GetEdgeNodesFromFlood` (500 on failure), block on the flood
Result Channel, and on success answer 200 with the server-node ids. -/
def flood_network (w : FloodWorld) : HttpResponse × List Effect :=
  if !w.initFloodSendOk then
    (⟨500, .text "Failed to send request to the backend to flood"⟩,
      [.SendCmd .InitializeFlood false])
  else
    if !w.getNodesSendOk then
      (⟨500, .text "Failed to send request to get nodes from the backend"⟩,
        [.SendCmd .InitializeFlood true, .Sleep 2,
          .SendCmd .GetEdgeNodesFromFlood false])
    else
      let pre : List Effect :=
        [.SendCmd .InitializeFlood true, .Sleep 2,
          .SendCmd .GetEdgeNodesFromFlood true, .RecvFlood]
      match w.floodRecvResult with
      | some nodes => (⟨200, .ids (collectServerIds nodes.nodes)⟩, pre)
      | none =>
        (⟨500, .text "Failed to receive answer from the backend"⟩, pre)

lemma collectServerIds_eq_filter_map (l : List (Nat × NodeType)) :
    collectServerIds l =
      (l.filter fun p => decide (p.2 = NodeType.Server)).map Prod.fst := by
  induction l with
  | nil => rfl
  | cons p rest ih =>
    rcases p with ⟨i, t⟩
    cases t <;> simp [collectServerIds, List.filter, ih]

/-- The JSON payload of `/register`. -/
structure RegisterRequest where
  id : Nat
deriving DecidableEq, Repr

/-- The JSON payload of `/send` and `/clients`: identifiers are `u8`,
modelled as `Nat`. -/
structure SendRequest where
  server_id : Nat
  client_id : Nat
  message : String
deriving DecidableEq, Repr

/-- The `/register` handler (`register` in `endpoints.rs`): build a
`ChatRequest::Register` message from this node's identity `client_id` to
the payload's target `id`, send it as `Command::SendMessage`, and answer
200 empty on success, 500 empty on a failed send. -/
def register (payload : RegisterRequest) (client_id : Nat) (sendOk : Bool) :
    HttpResponse × List Effect :=
  let msg : Message :=
    { source := client_id
      destination := payload.id
      session_id := 0
      content := .Request (.ChatRequest .Register) }
  if sendOk then (⟨200, .empty⟩, [.SendCmd (.SendMessage msg) true])
  else (⟨500, .empty⟩, [.SendCmd (.SendMessage msg) false])

/-- The `/send` handler (`send_message` in `endpoints.rs`): build a
`ChatRequest::SendMessage` addressed from this node to the payload's
`server_id`, carrying (from = this node, to = payload's `client_id`,
message), send it as `Command::SendMessage`, and answer 200 empty on
success, 500 empty on a failed send. -/
def send_message (payload : SendRequest) (node_id : Nat) (sendOk : Bool) :
    HttpResponse × List Effect :=
  let msg : Message :=
    { source := node_id
      destination := payload.server_id
      session_id := 0
      content := .Request (.ChatRequest
        (.SendMessage node_id payload.client_id payload.message)) }
  if sendOk then (⟨200, .empty⟩, [.SendCmd (.SendMessage msg) true])
  else (⟨500, .empty⟩, [.SendCmd (.SendMessage msg) false])

/-- The `/clients` handler (`clients` in `endpoints.rs`): build a
`ChatRequest::ClientList` message addressed from this node to the
payload's `server_id`, send it as `Command::SendMessage`, and answer 200
empty on success, 500 empty on a failed send. -/
def clients (payload : SendRequest) (node_id : Nat) (sendOk : Bool) :
    HttpResponse × List Effect :=
  let msg : Message :=
    { source := node_id
      destination := payload.server_id
      session_id := 0
      content := .Request (.ChatRequest .ClientList) }
  if sendOk then (⟨200, .empty⟩, [.SendCmd (.SendMessage msg) true])
  else (⟨500, .empty⟩, [.SendCmd (.SendMessage msg) false])

/-- The three possible outcomes of the `select!` race in `get_messages`:
a result arrives on the unread-messages Result Channel before the
3-second ticker fires, the channel turns out closed (recv yields an
error) before the ticker fires, or the ticker fires first. -/
inductive FetchOutcome
  | received (msgs : UnreadMessagesFromServer)
  | channelClosed
  | timeout
deriving DecidableEq, Repr

/-- The environment a `/messages` invocation runs against. -/
structure MessagesWorld where
  cmdSendOk : Bool
  outcome : FetchOutcome
deriving DecidableEq, Repr

/-- The `/messages` handler (`get_messages` in `endpoints.rs`): send
`Command::GetUnreadMessagesFromServer` (500 on failure), then race the
unread-messages Result Channel against a 3-second ticker. A non-empty
result yields 200 with the messages; an empty result yields 204; a closed
channel yields 200 with the string body (the code's `_` arm uses
`HttpResponse::Ok()`, not `NoContent()`); a timeout yields 204. -/
def get_messages (w : MessagesWorld) : HttpResponse × List Effect :=
  if !w.cmdSendOk then
    (⟨500, .text "Failed to send request to the backend"⟩,
      [.SendCmd .GetUnreadMessagesFromServer false])
  else
    let pre : List Effect :=
      [.SendCmd .GetUnreadMessagesFromServer true, .RecvUnreadSelect]
    match w.outcome with
    | .received msgs =>
      if msgs.msgs.isEmpty then (⟨204, .text "No new messages"⟩, pre)
      else (⟨200, .msgs msgs.msgs⟩, pre)
    | .channelClosed => (⟨200, .text "No new messages"⟩, pre)
    | .timeout => (⟨204, .text "No new messages"⟩, pre)

/-- C1: with both sends succeeding, for every discovery result received on
the flood Result Channel the `/flood` handler answers HTTP 200 whose body
is exactly the identifiers of the pairs whose node-kind is `Server`, in
the order they appear in the received collection. -/
theorem flood_returns_server_ids_in_order (nodes : List (Nat × NodeType)) :
    (flood_network ⟨true, true, some ⟨nodes⟩⟩).1 =
      ⟨200, .ids ((nodes.filter fun p =>
        decide (p.2 = NodeType.Server)).map Prod.fst)⟩ := by
  simp [flood_network, collectServerIds_eq_filter_map]

/-- C2 (evidence of the code bug): after a successful enqueue, when the
unread-messages Result Channel is closed `get_messages` answers HTTP 200
(the match's catch-all arm uses an Ok builder), not the 204 No Content
prescribed by the claim and by the handler's own doc comment; the other
three outcomes (non-empty result, empty result, timeout) behave as the
claim states. -/
theorem get_messages_outcomes (m : UnreadMsg) (rest : List UnreadMsg) :
    (get_messages ⟨true, .channelClosed⟩).1 =
      ⟨200, .text "No new messages"⟩ ∧
    (get_messages ⟨true, .received ⟨m :: rest⟩⟩).1 =
      ⟨200, .msgs (m :: rest)⟩ ∧
    (get_messages ⟨true, .received ⟨[]⟩⟩).1 =
      ⟨204, .text "No new messages"⟩ ∧
    (get_messages ⟨true, .timeout⟩).1 = ⟨204, .text "No new messages"⟩ := by
  refine ⟨rfl, ?_, rfl, rfl⟩
  simp [get_messages]

/-- C3: the `/flood` handler performs its steps in this order: enqueue
`InitializeFlood`, answering 500 at once if that send fails; sleep the
fixed 2 seconds; enqueue `GetEdgeNodesFromFlood`, answering 500 if that
send fails; finally block with no timeout on the flood Result Channel,
answering 500 if it is closed and 200 otherwise. -/
theorem flood_network_step_order (w : FloodWorld) :
    (w.initFloodSendOk = false →
      flood_network w =
        (⟨500, .text "Failed to send request to the backend to flood"⟩,
          [.SendCmd .InitializeFlood false])) ∧
    (w.initFloodSendOk = true → w.getNodesSendOk = false →
      flood_network w =
        (⟨500, .text "Failed to send request to get nodes from the backend"⟩,
          [.SendCmd .InitializeFlood true, .Sleep 2,
            .SendCmd .GetEdgeNodesFromFlood false])) ∧
    (w.initFloodSendOk = true → w.getNodesSendOk = true →
      w.floodRecvResult = none →
      flood_network w =
        (⟨500, .text "Failed to receive answer from the backend"⟩,
          [.SendCmd .InitializeFlood true, .Sleep 2,
            .SendCmd .GetEdgeNodesFromFlood true, .RecvFlood])) ∧
    (∀ nodes, w.initFloodSendOk = true → w.getNodesSendOk = true →
      w.floodRecvResult = some nodes →
      (flood_network w).2 =
        [.SendCmd .InitializeFlood true, .Sleep 2,
          .SendCmd .GetEdgeNodesFromFlood true, .RecvFlood] ∧
      (flood_network w).1.status = 200) := by
  obtain ⟨a, b, r⟩ := w
  refine ⟨?_, ?_, ?_, ?_⟩ <;> intros <;> subst_vars <;>
    simp [flood_network]

/-- Closed form of the step-order theorem at four concrete worlds, one per
branch of the protocol. -/
theorem flood_network_step_order_witness :
    flood_network ⟨false, true, none⟩ =
      (⟨500, .text "Failed to send request to the backend to flood"⟩,
        [.SendCmd .InitializeFlood false]) ∧
    flood_network ⟨true, false, none⟩ =
      (⟨500, .text "Failed to send request to get nodes from the backend"⟩,
        [.SendCmd .InitializeFlood true, .Sleep 2,
          .SendCmd .GetEdgeNodesFromFlood false]) ∧
    flood_network ⟨true, true, none⟩ =
      (⟨500, .text "Failed to receive answer from the backend"⟩,
        [.SendCmd .InitializeFlood true, .Sleep 2,
          .SendCmd .GetEdgeNodesFromFlood true, .RecvFlood]) ∧
    ((flood_network ⟨true, true, some ⟨[]⟩⟩).2 =
        [.SendCmd .InitializeFlood true, .Sleep 2,
          .SendCmd .GetEdgeNodesFromFlood true, .RecvFlood] ∧
      (flood_network ⟨true, true, some ⟨[]⟩⟩).1.status = 200) :=
  ⟨(flood_network_step_order ⟨false, true, none⟩).1 rfl,
   (flood_network_step_order ⟨true, false, none⟩).2.1 rfl rfl,
   (flood_network_step_order ⟨true, true, none⟩).2.2.1 rfl rfl rfl,
   (flood_network_step_order ⟨true, true, some ⟨[]⟩⟩).2.2.2 ⟨[]⟩ rfl rfl rfl⟩

/-- C4: when the Command Channel's consumer has been dropped, every
Command-Dispatch endpoint answers with status 500 and no command is
enqueued (the handlers are total functions here: no panic). -/
theorem closed_command_channel_gives_500 (rp : RegisterRequest)
    (sp : SendRequest) (cid : Nat) (fr : Option ListOfDiscoveredEdgeNodes)
    (oc : FetchOutcome) :
    ((flood_network ⟨false, false, fr⟩).1.status = 500 ∧
      enqueued (flood_network ⟨false, false, fr⟩).2 = []) ∧
    ((register rp cid false).1.status = 500 ∧
      enqueued (register rp cid false).2 = []) ∧
    ((send_message sp cid false).1.status = 500 ∧
      enqueued (send_message sp cid false).2 = []) ∧
    ((clients sp cid false).1.status = 500 ∧
      enqueued (clients sp cid false).2 = []) ∧
    ((get_messages ⟨false, oc⟩).1.status = 500 ∧
      enqueued (get_messages ⟨false, oc⟩).2 = []) := by
  simp [flood_network, register, send_message, clients, get_messages,
    enqueued]

/-- C5: on a successful enqueue each forwarding endpoint constructs
exactly one message, sourced at this node's identity and addressed to the
payload's target (the registration target for `/register`, the server
identifier for `/send` and `/clients`), wraps it in a `SendMessage`
command, enqueues it once, and answers 200 with an empty body. -/
theorem forwarding_single_enqueue_200 (rp : RegisterRequest)
    (sp : SendRequest) (cid nid : Nat) :
    (∃ m : Message, m.source = cid ∧ m.destination = rp.id ∧
      register rp cid true =
        (⟨200, .empty⟩, [.SendCmd (.SendMessage m) true])) ∧
    (∃ m : Message, m.source = nid ∧ m.destination = sp.server_id ∧
      send_message sp nid true =
        (⟨200, .empty⟩, [.SendCmd (.SendMessage m) true])) ∧
    (∃ m : Message, m.source = nid ∧ m.destination = sp.server_id ∧
      clients sp nid true =
        (⟨200, .empty⟩, [.SendCmd (.SendMessage m) true])) :=
  ⟨⟨_, rfl, rfl, rfl⟩, ⟨_, rfl, rfl, rfl⟩, ⟨_, rfl, rfl, rfl⟩⟩

/-- C9: the `/clients` handler ignores the `client_id` and `message`
fields of its payload: two payloads agreeing on `server_id` produce the
same response and the same trace, and the single command enqueued is a
`ClientList` chat request addressed from this node to `server_id`. -/
theorem clients_independent_of_client_fields (p1 p2 : SendRequest)
    (nid : Nat) (ok : Bool) (h : p1.server_id = p2.server_id) :
    clients p1 nid ok = clients p2 nid ok ∧
    (clients p1 nid ok).2 =
      [.SendCmd (.SendMessage
        ⟨nid, p1.server_id, 0, .Request (.ChatRequest .ClientList)⟩) ok] := by
  constructor
  · simp [clients, h]
  · cases ok <;> simp [clients]

/-- Closed instance: two `/clients` payloads sharing `server_id = 3` but
with different `client_id` and `message` yield identical behaviour. -/
theorem clients_independent_of_client_fields_witness :
    clients ⟨3, 1, "hi"⟩ 2 true = clients ⟨3, 9, "bye"⟩ 2 true ∧
    (clients ⟨3, 1, "hi"⟩ 2 true).2 =
      [.SendCmd (.SendMessage
        ⟨2, 3, 0, .Request (.ChatRequest .ClientList)⟩) true] :=
  clients_independent_of_client_fields ⟨3, 1, "hi"⟩ ⟨3, 9, "bye"⟩ 2 true rfl

/-- Does every send-message command attempted by a trace carry session
identifier 0? -/
def sessionIdsZero (es : List Effect) : Bool :=
  es.all fun e =>
    match e with
    | .SendCmd (.SendMessage m) _ => m.session_id == 0
    | _ => true

/-- C10: every message any handler wraps in a send-message command has
`session_id = 0`; the two non-forwarding handlers attempt no send-message
command at all, so across all five handlers no message with a non-zero
session identifier is ever enqueued. -/
theorem all_session_ids_zero (rp : RegisterRequest) (sp : SendRequest)
    (cid nid : Nat) (ok : Bool) (fw : FloodWorld) (mw : MessagesWorld) :
    sessionIdsZero (register rp cid ok).2 = true ∧
    sessionIdsZero (send_message sp nid ok).2 = true ∧
    sessionIdsZero (clients sp nid ok).2 = true ∧
    sessionIdsZero (flood_network fw).2 = true ∧
    sessionIdsZero (get_messages mw).2 = true := by
  obtain ⟨a, b, r⟩ := fw
  obtain ⟨c, oc⟩ := mw
  cases ok <;> cases a <;> cases b <;> cases r <;> cases c <;> cases oc <;>
    simp [sessionIdsZero, register, send_message, clients, flood_network,
      get_messages] <;> split <;> simp

/-- Which side of a channel an endpoint handle is. Both sides are
clonable; cloning shares the same underlying queue, so an endpoint is
identified by its channel and its side. -/
inductive Side
  | producer
  | consumer
deriving DecidableEq, Repr

/-- A channel endpoint handle: the identity of the underlying channel and
the side held. -/
structure Endpoint where
  channel : Nat
  side : Side
deriving DecidableEq, Repr

/-- The `Client` struct of `lib.rs`: both endpoints of the Command
Channel, of the flood Result Channel and of the unread-messages Result
Channel. -/
structure Client where
  command_send : Endpoint
  command_receive : Endpoint
  flood_send : Endpoint
  flood_recv : Endpoint
  unread_msg_send : Endpoint
  unread_msg_recv : Endpoint
deriving DecidableEq, Repr

/-- `Client::new`: create the three unbounded channels (numbered 0, 1, 2
here) and keep both endpoints of each. -/
def Client.new : Client :=
  { command_send := ⟨0, .producer⟩
    command_receive := ⟨0, .consumer⟩
    flood_send := ⟨1, .producer⟩
    flood_recv := ⟨1, .consumer⟩
    unread_msg_send := ⟨2, .producer⟩
    unread_msg_recv := ⟨2, .consumer⟩ }

/-- The channel endpoints `Client::run` hands to `Service::new` (the
worker); the worker's other arguments (event sink, packet channels) are
opaque to this layer and omitted. -/
structure WorkerArgs where
  id : Nat
  command_receive : Endpoint
  flood_send : Endpoint
  unread_msg_send : Endpoint
deriving DecidableEq, Repr

/-- The arguments `Client::run` hands to `start_server`, in the source's
order: command producer, port (the u8 identity widened to u16), node id,
and the consuming sides of the two Result Channels. -/
structure ServerArgs where
  command_send : Endpoint
  port : Nat
  node_id : Nat
  flood_recv : Endpoint
  unread_msg_recv : Endpoint
deriving DecidableEq, Repr

/-- What one call of `Client::run` did: the worker construction arguments,
how many background threads were spawned, the front-end arguments (none
if `start_server` was never reached), and the value returned to the
caller once blocking ended. -/
structure RunTrace where
  workerArgs : WorkerArgs
  threadsSpawned : Nat
  serverArgs : Option ServerArgs
  result : Except String Unit
deriving Repr

/-- `Client::run` from `lib.rs`: construct the worker via `Service::new`
(on failure return the error at once — no thread is spawned and the
server is never started), spawn exactly one thread running the worker
loop, then start the HTTP front end and block on it, returning its
outcome. `serviceNewOk` models whether `Service::new` succeeds and
`serverOutcome` the result of blocking on the served front end. -/
def Client.run (c : Client) (id : Nat) (serviceNewOk : Bool)
    (serverOutcome : Except String Unit) : RunTrace :=
  let wa : WorkerArgs := ⟨id, c.command_receive, c.flood_send, c.unread_msg_send⟩
  if serviceNewOk then
    { workerArgs := wa
      threadsSpawned := 1
      serverArgs := some ⟨c.command_send, id, id, c.flood_recv, c.unread_msg_recv⟩
      result := serverOutcome }
  else
    { workerArgs := wa
      threadsSpawned := 0
      serverArgs := none
      result := .error "Service construction failed" }

/-- The socket `start_server` binds: host and port. -/
structure BindSpec where
  host : String
  port : Nat
deriving DecidableEq, Repr

/-- The single bind performed by `start_server` in `server/mod.rs`:
loopback host, and the u16 port argument plus 8000 (u16 arithmetic,
hence the reduction modulo 2 to the 16). -/
def start_server_bind (port : Nat) : BindSpec :=
  ⟨"127.0.0.1", (port + 8000) % 65536⟩

/-- C6 as amended: a `run` call whose worker construction succeeds spawns
exactly one background thread, hands the worker the consuming side of the
Command Channel and the producing sides of both Result Channels, hands
the front end the producing side of the Command Channel and the consuming
sides of both Result Channels, and returns the front end's outcome
(blocking until it terminates, propagating its startup failure); a call
whose worker construction fails spawns no thread, starts no server and
returns an error. On `Client.new` the handles are the matching sides of
the same three channels. -/
theorem run_wiring (c : Client) (id : Nat) (outcome : Except String Unit) :
    (c.run id true outcome).threadsSpawned = 1 ∧
    (c.run id true outcome).workerArgs =
      ⟨id, c.command_receive, c.flood_send, c.unread_msg_send⟩ ∧
    (c.run id true outcome).serverArgs =
      some ⟨c.command_send, id, id, c.flood_recv, c.unread_msg_recv⟩ ∧
    (c.run id true outcome).result = outcome ∧
    ((c.run id false outcome).threadsSpawned = 0 ∧
      (c.run id false outcome).serverArgs = none ∧
      (c.run id false outcome).result =
        .error "Service construction failed") ∧
    (Client.new.command_receive.side = .consumer ∧
      Client.new.command_send.side = .producer ∧
      Client.new.command_receive.channel = Client.new.command_send.channel ∧
      Client.new.flood_send.side = .producer ∧
      Client.new.flood_recv.side = .consumer ∧
      Client.new.flood_send.channel = Client.new.flood_recv.channel ∧
      Client.new.unread_msg_send.side = .producer ∧
      Client.new.unread_msg_recv.side = .consumer ∧
      Client.new.unread_msg_send.channel =
        Client.new.unread_msg_recv.channel) := by
  exact ⟨rfl, rfl, rfl, rfl, ⟨rfl, rfl, rfl⟩, by decide⟩

/-- C6 counterexample to the claim as stated: a `run` call whose worker
construction fails spawns zero background threads, not exactly one. -/
theorem run_without_worker_spawns_no_thread :
    (Client.new.run 5 false (.ok ())).threadsSpawned = 0 ∧
    (Client.new.run 5 false (.ok ())).threadsSpawned ≠ 1 := by
  refine ⟨rfl, ?_⟩
  simp [Client.run, Client.new]

/-- C7: for every u8 node identity the bind is on loopback 127.0.0.1 at
port identity + 8000, which lies in 8000..=8255 and does not overflow
u16. -/
theorem bind_loopback_port_from_identity (id : Nat) (h : id < 256) :
    start_server_bind id = ⟨"127.0.0.1", id + 8000⟩ ∧
    8000 ≤ id + 8000 ∧ id + 8000 ≤ 8255 ∧ id + 8000 < 65536 := by
  have hlt : id + 8000 < 65536 := by omega
  refine ⟨?_, by omega, by omega, hlt⟩
  simp [start_server_bind, Nat.mod_eq_of_lt hlt]

/-- Closed instance of the bind property at identity 42: port 8042. -/
theorem bind_loopback_port_from_identity_witness :
    start_server_bind 42 = ⟨"127.0.0.1", 8042⟩ ∧
    8000 ≤ 8042 ∧ 8042 ≤ 8255 ∧ 8042 < 65536 :=
  bind_loopback_port_from_identity 42 (by decide)

/-- Modelled from the spec: the crossbeam unbounded channel underlying
each Result Channel is not part of this repository, so its queue
semantics are modelled from the spec's words — a single FIFO queue shared
by the single producer (the worker) and all cloned consumers (handlers),
where a receive removes the head. Results are numbered by production
order; the state holds how many have been produced and which are still
queued. -/
structure ChanState where
  produced : Nat
  queue : List Nat
deriving DecidableEq, Repr

/-- An observable event on one Result Channel: the worker producing the
next result, or the handler named `reader` receiving result `i`. -/
inductive ChanEvent
  | produce (i : Nat)
  | recv (reader : Nat) (i : Nat)
deriving DecidableEq, Repr

/-- One step of the shared queue: a produce appends the next result at
the tail; a receive by any reader removes the head. -/
inductive ChanStep : ChanState → ChanEvent → ChanState → Prop
  | produce (n : Nat) (q : List Nat) :
      ChanStep ⟨n, q⟩ (.produce n) ⟨n + 1, q ++ [n]⟩
  | recv (r n i : Nat) (q : List Nat) :
      ChanStep ⟨n, i :: q⟩ (.recv r i) ⟨n, q⟩

/-- An interleaving of produce and receive steps, by arbitrarily many
concurrent readers, from one state to another. -/
inductive ChanTrace : ChanState → List ChanEvent → ChanState → Prop
  | nil (s : ChanState) : ChanTrace s [] s
  | cons {s s1 s2 : ChanState} {e : ChanEvent} {tr : List ChanEvent} :
      ChanStep s e s1 → ChanTrace s1 tr s2 → ChanTrace s (e :: tr) s2

/-- The indices received over a trace, in the order the receives
happened, across all readers. -/
def recvIndices : List ChanEvent → List Nat
  | [] => []
  | .recv _ i :: tr => i :: recvIndices tr
  | .produce _ :: tr => recvIndices tr

lemma chanTrace_inv {s : ChanState} {tr : List ChanEvent} {s2 : ChanState}
    (h : ChanTrace s tr s2) (hc : List.Pairwise (· < ·) s.queue)
    (hb : ∀ x ∈ s.queue, x < s.produced) :
    List.Pairwise (· < ·) (recvIndices tr ++ s2.queue) ∧
    (∀ x ∈ recvIndices tr ++ s2.queue, x ∈ s.queue ∨ s.produced ≤ x) ∧
    s.produced ≤ s2.produced := by
  induction h with
  | nil s =>
    refine ⟨by simpa [recvIndices] using hc, ?_, le_refl _⟩
    intro x hx
    exact Or.inl (by simpa [recvIndices] using hx)
  | cons hstep htr ih =>
    cases hstep with
    | produce n q =>
      have hc1 : List.Pairwise (· < ·) (q ++ [n]) := by
        refine List.pairwise_append.2 ⟨hc, List.pairwise_singleton _ _, ?_⟩
        intro x hx y hy
        simp only [List.mem_singleton] at hy
        subst hy
        exact hb x hx
      have hb1 : ∀ x ∈ q ++ [n], x < n + 1 := by
        intro x hx
        rcases List.mem_append.1 hx with hx | hx
        · exact Nat.lt_succ_of_lt (hb x hx)
        · simp only [List.mem_singleton] at hx
          omega
      obtain ⟨ih1, ih2, ih3⟩ := ih hc1 hb1
      refine ⟨by simpa [recvIndices] using ih1, ?_,
        Nat.le_trans (Nat.le_succ n) ih3⟩
      intro x hx
      simp only [recvIndices] at hx
      rcases ih2 x hx with hx2 | hx2
      · rcases List.mem_append.1 hx2 with hq | hn
        · exact Or.inl hq
        · simp only [List.mem_singleton] at hn
          exact Or.inr (Nat.le_of_eq hn.symm)
      · exact Or.inr (Nat.le_trans (Nat.le_succ n) hx2)
    | recv r n i q =>
      have hc0 := List.pairwise_cons.1 hc
      obtain ⟨ih1, ih2, ih3⟩ :=
        ih hc0.2 (fun x hx => hb x (List.mem_cons_of_mem _ hx))
      refine ⟨?_, ?_, ih3⟩
      · simp only [recvIndices, List.cons_append]
        refine List.pairwise_cons.2 ⟨?_, ih1⟩
        intro y hy
        rcases ih2 y hy with hy2 | hy2
        · exact hc0.1 y hy2
        · exact lt_of_lt_of_le (hb i (List.mem_cons_self _ _)) hy2
      · intro x hx
        simp only [recvIndices, List.cons_append, List.mem_cons] at hx
        rcases hx with hx | hx
        · subst hx
          exact Or.inl (List.mem_cons_self _ _)
        · rcases ih2 x hx with hx2 | hx2
          · exact Or.inl (List.mem_cons_of_mem _ hx2)
          · exact Or.inr hx2

/-- C8: over any interleaving of worker produces and handler receives on
a Result Channel started empty, the received result indices are strictly
increasing across all readers — so receives happen in production order
and each individual result is received at most once (by at most one
reader), queue semantics rather than broadcast. -/
theorem result_channel_queue_semantics (tr : List ChanEvent)
    (s2 : ChanState) (h : ChanTrace ⟨0, []⟩ tr s2) :
    List.Pairwise (· < ·) (recvIndices tr) ∧
    ∀ i : Nat, (recvIndices tr).count i ≤ 1 := by
  obtain ⟨h1, _, _⟩ :=
    chanTrace_inv h (List.Pairwise.nil) (by intro x hx; cases hx)
  have hpair : List.Pairwise (· < ·) (recvIndices tr) :=
    h1.sublist (List.sublist_append_left _ _)
  refine ⟨hpair, ?_⟩
  intro i
  have hnd : (recvIndices tr).Nodup := hpair.imp Nat.ne_of_lt
  exact List.nodup_iff_count_le_one.1 hnd i

/-- Closed instance of the queue-semantics property: the worker produces
results 0 and 1, reader 7 then reader 8 each receive one; the received
indices are [0, 1], ordered and duplicate-free. -/
theorem result_channel_queue_semantics_witness :
    List.Pairwise (· < ·)
      (recvIndices [.produce 0, .produce 1, .recv 7 0, .recv 8 1]) ∧
    ∀ i : Nat,
      (recvIndices [.produce 0, .produce 1, .recv 7 0, .recv 8 1]).count i
        ≤ 1 :=
  result_channel_queue_semantics _ ⟨2, []⟩
    (ChanTrace.cons (ChanStep.produce 0 [])
      (ChanTrace.cons (ChanStep.produce 1 [0])
        (ChanTrace.cons (ChanStep.recv 7 2 0 [1])
          (ChanTrace.cons (ChanStep.recv 8 2 1 [])
            (ChanTrace.nil _)))))

end Frontend
